import Mathlib

/-!
Shallow embedding of the `consScore` repository (files `cons.py` and
`aminoCons.py`) and verification of its specification claims.

Python strings become `String`, Python lists become `List`, machine ints
become `Nat`, and Python exceptions become an explicit error type threaded
through `Except`.  Mutation of `self` on the `OrthologFinder` class becomes
explicit state passing of an `OFState` record; because Python keeps the
mutations made before a `raise`, errors carry the state at raise time.
HTTP traffic is abstracted by response records holding the status code and
the already-decoded payload the code reads from the body.  `os.linesep` is
fixed to the POSIX value, the platform this repository targets.

The Python string primitives used by the code (`startswith`, `split`,
`splitlines`, substring search) are re-implemented structurally over
`List Char` so that every definition evaluates by kernel reduction.
-/

namespace ConsScore

/-- The value of `os.linesep` on the POSIX platforms the repository runs on. -/
def linesep : String := "\n"

/-- Split a character list at every character satisfying `p`; pieces between
two adjacent separators are empty, exactly as in Python `str.split(sep)`
for a one-character separator (with `p` matching just that character). -/
def splitByP (p : Char → Bool) (l : List Char) : List (List Char) :=
  l.foldr
    (fun c acc =>
      if p c then [] :: acc
      else
        match acc with
        | h :: r => (c :: h) :: r
        | [] => [[c]])
    [[]]

/-- Python `s.split(sep)` for a one-character separator `sep`. -/
def pySplitOn (s : String) (sep : Char) : List String :=
  (splitByP (fun c => c = sep) s.data).map List.asString

/-- Python `str.split()` with no argument: split on runs of whitespace,
dropping empty tokens. -/
def pySplit (s : String) : List String :=
  ((splitByP Char.isWhitespace s.data).filter (fun x => x ≠ [])).map List.asString

/-- Python `str.splitlines()` restricted to `\n` separators: like splitting
on newline but without a trailing empty piece. -/
def pySplitlines (s : String) : List String :=
  match (pySplitOn s '\n').reverse with
  | "" :: rest => rest.reverse
  | l => l.reverse

/-- Python `s.startswith(pat)`. -/
def pyStartsWith (s pat : String) : Bool :=
  pat.data.isPrefixOf s.data

/-- Python `s[0]`: the first character of a string; only ever applied to
non-empty strings in this development (the source guards the access). -/
def pyFirstChar (s : String) : Char :=
  s.data.headD 'A'

/-- Substring test on character lists: does `pat` occur inside the list?
Models `re.search(pat, s)` for a pattern with no metacharacters. -/
def containsAux (pat : List Char) : List Char → Bool
  | [] => pat.isPrefixOf ([] : List Char)
  | c :: t => pat.isPrefixOf (c :: t) || containsAux pat t

/-- `strContainsSub s pat` is true when `pat` occurs as a substring of `s`. -/
def strContainsSub (s pat : String) : Bool :=
  containsAux pat.data s.data

/-- The Python exceptions raised by this repository, with the message where
the source supplies one. -/
inductive PyError where
  | timeoutError
  | requestException (msg : String)
  | indexError
  | sequenceError (msg : String)
  | fileNotFoundError
  | rate4SiteError (msg : String)
deriving Repr, DecidableEq

/-- `cons.py` `OrthologFinder.header_check`: pass FASTA input through,
synthesize a default header for input starting with a letter, and raise
`SequenceError` on empty or otherwise malformed input. -/
def header_check (sequences : String) : Except PyError String :=
  if pyStartsWith sequences ">" then Except.ok sequences
  else if sequences = "" then
    Except.error (PyError.sequenceError "Empty Sequence entered.")
  else if (pyFirstChar sequences).isAlpha then
    Except.ok (">Input Sequence" ++ linesep ++ sequences)
  else
    Except.error (PyError.sequenceError "Not a FASTA sequence. Please try again")

/-- `aminoCons.py` `ortholog_checker`: textually identical to
`OrthologFinder.header_check`. -/
def ortholog_checker (sequences : String) : Except PyError String :=
  if pyStartsWith sequences ">" then Except.ok sequences
  else if sequences = "" then
    Except.error (PyError.sequenceError "Empty Sequence entered.")
  else if (pyFirstChar sequences).isAlpha then
    Except.ok (">Input Sequence" ++ linesep ++ sequences)
  else
    Except.error (PyError.sequenceError "Not a FASTA sequence. Please try again")

/-- `cons.py` `OrthologFinder.seqnwl_strip`: `header_check`, split on
`os.linesep`, drop empty pieces, glue `newlist[0] + linesep + newlist[1]`
in front of the tail after popping only `newlist[0]`, and join.  Fewer
than two non-empty lines make `newlist[1]` raise `IndexError`. -/
def seqnwl_strip (string : String) : Except PyError String := do
  let seqhead ← header_check string
  let newlist := (pySplitOn seqhead '\n').filter (fun x => x ≠ "")
  match newlist with
  | a :: b :: rest => Except.ok (String.join ((a ++ linesep ++ b) :: b :: rest))
  | _ => Except.error PyError.indexError

/-- The value of `self.hog_level`: Python stores either a string (the root
level) or the list of alternative levels; `unset` models the attribute not
yet having been assigned. -/
inductive HogLevel where
  | unset
  | level (s : String)
  | alternatives (ls : List String)
deriving Repr, DecidableEq

/-- The mutable attributes of an `OrthologFinder` instance (`cons.py`
`__init__`); `hog_level` and `HOGs` are only assigned later by
`read_HOGid` / `HOG_to_fasta` and start out unset/empty here. -/
structure OFState where
  fasta : String
  sequence : String := ""
  id : String := ""
  ortholog_ids : List String := []
  orthologs : String := ""
  has_run : Bool := false
  has_run_hogs : Bool := false
  save_status : Nat := 0
  hog_level : HogLevel := HogLevel.unset
  HOGs : String := ""
deriving Repr, DecidableEq

/-- A fresh `OrthologFinder(fasta)` instance. -/
def initState (fasta : String) : OFState :=
  { fasta := fasta }

/-- Decoded response of `GET /api/sequence/?query=...`: the status code and
the `omaid` field of each entry of the JSON `targets` array. -/
structure SeqResponse where
  status_code : Nat
  targets : List String := []
deriving Repr, DecidableEq

/-- Decoded response of `GET /api/hog/{id}/`: the status code, the `level`
field of each entry, and the `alternative_levels` field. -/
structure HogResponse where
  status_code : Nat
  levels : List String := []
  alternative_levels : List String := []
deriving Repr, DecidableEq

/-- Decoded response of `GET /api/protein/{id}/orthologs/`: the status code
and the `canonicalid` field of each entry of the JSON list. -/
structure IdsResponse where
  status_code : Nat
  canonicalids : List String := []
deriving Repr, DecidableEq

/-- Plain-text response (`response.text`) used by the two fasta endpoints. -/
structure TextResponse where
  status_code : Nat
  text : String := ""
deriving Repr, DecidableEq

/-- The remote side of one orchestration run: the responses the five
endpoints would return to their `requests.get` calls. -/
structure Network where
  seqResp : SeqResponse
  hogResp : HogResponse
  idsResp : IdsResponse
  fastaResp : TextResponse
  hogFastaResp : TextResponse
deriving Repr, DecidableEq

/-- Results of an `OrthologFinder` method: either a value plus the updated
state, or the raised exception plus the state at raise time (Python keeps
mutations made before a `raise`). -/
abbrev OFResult (α : Type) := Except (PyError × OFState) α

/-- `cons.py` `OrthologFinder.read_resp_retOMA`: store
`targets[0]['omaid']` into `self.id`; an empty `targets` array raises
`IndexError` on the subscript. -/
def read_resp_retOMA (resp : SeqResponse) (st : OFState) : OFResult OFState :=
  match resp.targets.head? with
  | some omaid => Except.ok { st with id := omaid }
  | none => Except.error (PyError.indexError, st)

/-- `cons.py` `OrthologFinder.retrieve_OMAid`: on 200 read the response;
on 504 record the status and raise `TimeoutError`; on any other non-200
record the status and raise `RequestException`. -/
def retrieve_OMAid (resp : SeqResponse) (st : OFState) : OFResult OFState := do
  let st ← if resp.status_code = 200 then read_resp_retOMA resp st else Except.ok st
  if resp.status_code = 504 then
    Except.error (PyError.timeoutError, { st with save_status := resp.status_code })
  else if resp.status_code ≠ 200 then
    Except.error (PyError.requestException ("Status code:" ++ toString resp.status_code),
      { st with save_status := resp.status_code })
  else Except.ok st

/-- `cons.py` `OrthologFinder.read_HOGid`: with `root` store
`response[0]['level']` (an empty list raises `IndexError`), otherwise store
`response['alternative_levels']`; returns `self.hog_level`. -/
def read_HOGid (resp : HogResponse) (root : Bool) (st : OFState) :
    OFResult (HogLevel × OFState) :=
  if root then
    match resp.levels.head? with
    | some lv => Except.ok (HogLevel.level lv, { st with hog_level := HogLevel.level lv })
    | none => Except.error (PyError.indexError, st)
  else
    Except.ok (HogLevel.alternatives resp.alternative_levels,
      { st with hog_level := HogLevel.alternatives resp.alternative_levels })

/-- `cons.py` `OrthologFinder.retrieve_HOGS`: on 200 return `read_HOGid`;
on 504 record the status and raise `TimeoutError`; on any other non-200
record the status and raise `RequestException`. -/
def retrieve_HOGS (resp : HogResponse) (root : Bool) (st : OFState) :
    OFResult (HogLevel × OFState) :=
  if resp.status_code = 200 then read_HOGid resp root st
  else if resp.status_code = 504 then
    Except.error (PyError.timeoutError, { st with save_status := resp.status_code })
  else
    Except.error (PyError.requestException ("Status code:" ++ toString resp.status_code),
      { st with save_status := resp.status_code })

/-- `cons.py` `OrthologFinder.read_resp_upOMA`: append every entry's
`canonicalid` to `self.ortholog_ids`. -/
def read_resp_upOMA (resp : IdsResponse) (st : OFState) : OFState :=
  { st with ortholog_ids := st.ortholog_ids ++ resp.canonicalids }

/-- `cons.py` `OrthologFinder.update_OMA_orthoIDs`: on 200 read the
response; on any other status (504 included) record the status and raise
`RequestException`. -/
def update_OMA_orthoIDs (resp : IdsResponse) (st : OFState) : OFResult OFState :=
  if resp.status_code = 200 then Except.ok (read_resp_upOMA resp st)
  else
    Except.error (PyError.requestException ("Status code:" ++ toString resp.status_code),
      { st with save_status := resp.status_code })

/-- `cons.py` `OrthologFinder.ortholog_to_fasta`: on 200 store and return
`response.text`; on any other status (504 included) record the status and
raise `RequestException` (message with a space after the colon). -/
def ortholog_to_fasta (resp : TextResponse) (st : OFState) : OFResult (String × OFState) :=
  if resp.status_code = 200 then
    Except.ok (resp.text, { st with orthologs := resp.text })
  else
    Except.error (PyError.requestException ("Status code: " ++ toString resp.status_code),
      { st with save_status := resp.status_code })

/-- `cons.py` `OrthologFinder.HOG_to_fasta`: on 200 store and return
`response.text`; on any other status (504 included) record the status and
raise `RequestException` (message with a space after the colon). -/
def HOG_to_fasta (resp : TextResponse) (st : OFState) : OFResult (String × OFState) :=
  if resp.status_code = 200 then
    Except.ok (resp.text, { st with HOGs := resp.text })
  else
    Except.error (PyError.requestException ("Status code: " ++ toString resp.status_code),
      { st with save_status := resp.status_code })

/-- Python `list.remove(x)`: drop the first occurrence of `x`. -/
def pyRemoveFirst (l : List String) (x : String) : List String :=
  match l with
  | [] => []
  | a :: t => if a = x then t else a :: pyRemoveFirst t x

/-- The `for f in fstr: if f.startswith('>'): fstr.remove(f)` loop of
`get_fasta_sequence`, with Python's for-loop semantics of iterating by
index over the list being mutated.  Structural recursion on a fuel value:
each step advances the index by one and never lengthens the list, so
`l.length` steps always reach the end of the list. -/
def removeHeadersAux : Nat → List String → Nat → List String
  | 0, l, _ => l
  | fuel + 1, l, i =>
    if h : i < l.length then
      let f := l.get ⟨i, h⟩
      if pyStartsWith f ">" then removeHeadersAux fuel (pyRemoveFirst l f) (i + 1)
      else removeHeadersAux fuel l (i + 1)
    else l

/-- The header-removal loop of `get_fasta_sequence`, started at index 0
with enough fuel to exhaust the list. -/
def removeHeaders (l : List String) : List String :=
  removeHeadersAux l.length l 0

/-- `cons.py` `OrthologFinder.indv_block`: split text starting with `>` at
every `>` into individual constructs, re-attaching the markers; other text
is returned as a single block. -/
def indv_block (st : String) : List String :=
  if pyStartsWith st ">" then
    ((pySplitOn st '>').filter (fun x => x ≠ "")).map (fun f => ">" ++ f)
  else [st]

/-- `cons.py` `OrthologFinder.get_fasta_sequence`: take the block at
`index` (subscript raises `IndexError`), split it into lines, remove the
header lines, and join the rest. -/
def get_fasta_sequence (fasta : String) (index : Nat) : Except PyError String :=
  let fstr := indv_block fasta
  match fstr.get? index with
  | none => Except.error PyError.indexError
  | some blk => Except.ok (String.join (removeHeaders (pySplitlines blk)))

/-- `cons.py` `OrthologFinder.get_HOGs`: set `self.sequence`, return the
cached `self.HOGs` when `has_run_hogs`, otherwise resolve the id, the HOG
level and the HOG fasta; there is no exception handler here, so every
raised exception propagates to the caller. -/
def get_HOGs (net : Network) (st : OFState) : OFResult (String × OFState) := do
  let seq ←
    match get_fasta_sequence st.fasta 0 with
    | Except.ok s => Except.ok s
    | Except.error e => Except.error (e, st)
  let st := { st with sequence := seq }
  if st.has_run_hogs then
    Except.ok (st.HOGs, st)
  else do
    let st ← retrieve_OMAid net.seqResp st
    let (_, st) ← retrieve_HOGS net.hogResp true st
    let (output, st) ← HOG_to_fasta net.hogFastaResp st
    Except.ok (output, { st with has_run_hogs := true })

/-- The `try` block of `cons.py` `OrthologFinder.get_orthologs`: set
`self.sequence`, return the cached `self.orthologs` when `has_run`,
otherwise resolve the id, fetch the ortholog fasta, and prepend the
newline-stripped input before caching the flag. -/
def get_orthologs_body (net : Network) (st : OFState) : OFResult (String × OFState) := do
  let seq ←
    match get_fasta_sequence st.fasta 0 with
    | Except.ok s => Except.ok s
    | Except.error e => Except.error (e, st)
  let st := { st with sequence := seq }
  if st.has_run then
    Except.ok (st.orthologs, st)
  else do
    let st ← retrieve_OMAid net.seqResp st
    let (output, st) ← ortholog_to_fasta net.fastaResp st
    let stripped ←
      match seqnwl_strip st.fasta with
      | Except.ok s => Except.ok s
      | Except.error e => Except.error (e, st)
    Except.ok (stripped ++ linesep ++ output, { st with has_run := true })

/-- `cons.py` `OrthologFinder.get_orthologs`: the `try` block above with
handlers turning `RequestException`, `TimeoutError` and `IndexError` into
returned strings; any other exception propagates. -/
def get_orthologs (net : Network) (st : OFState) : OFResult (String × OFState) :=
  match get_orthologs_body net st with
  | Except.ok r => Except.ok r
  | Except.error (PyError.requestException _, st) =>
      Except.ok ("There was an issue querying the database. Status code " ++
        toString st.save_status, st)
  | Except.error (PyError.timeoutError, st) =>
      Except.ok ("The database timed out. Could not determine the orthologs of your sequence. Status code " ++
        toString st.save_status, st)
  | Except.error (PyError.indexError, st) =>
      Except.ok ("Input sequence is empty!", st)
  | Except.error e => Except.error e

/-- Value of a decimal digit character. -/
def digitVal (c : Char) : Nat :=
  c.toNat - 48

/-- Read a list of decimal digit characters as a natural number. -/
def digitsToNat (l : List Char) : Nat :=
  l.foldl (fun a c => 10 * a + digitVal c) 0

/-- Python `float(m)` for a string `m` matched by the regex
`[0-9]*\.?[0-9]+`: digits, optionally a dot followed by more digits.  The
value `i.f` is represented exactly as the rational
`(i * 10^|f| + f) / 10^|f|`. -/
def parseDecimal (s : String) : Rat :=
  match splitByP (fun c => c = '.') s.data with
  | [i] => mkRat (digitsToNat i) 1
  | [i, f] => mkRat (digitsToNat i * 10 ^ f.length + digitsToNat f) (10 ^ f.length)
  | _ => 0

/-- One match attempt of the regex `[0-9]*\.?[0-9]+` at the head of `l`:
greedy digits, then a dot only when digits follow it, falling back to the
integer part alone; returns the matched text and the rest of the input.
A returned match is always non-empty and consumes at least one character. -/
def matchNumAt (l : List Char) : Option (List Char × List Char) :=
  let d1 := l.takeWhile Char.isDigit
  let r1 := l.drop d1.length
  match r1 with
  | '.' :: r2 =>
    let d2 := r2.takeWhile Char.isDigit
    if d2.isEmpty then
      if d1.isEmpty then none else some (d1, r1)
    else some (d1 ++ '.' :: d2, r2.drop d2.length)
  | _ => if d1.isEmpty then none else some (d1, r1)

/-- The scan of `re.findall(r"[0-9]*\.?[0-9]+", s)`: try a match at the
current position, emit it and continue after it, or advance one character.
Every step consumes at least one character, so fuel equal to the input
length makes the scan exact. -/
def findNumsAux : Nat → List Char → List String
  | 0, _ => []
  | _, [] => []
  | fuel + 1, c :: t =>
    match matchNumAt (c :: t) with
    | some (m, rest) => m.asString :: findNumsAux fuel rest
    | none => findNumsAux fuel t

/-- `aminoCons.py` `Rate4Site.get_num`: all numbers matched in the string
by `[0-9]*\.?[0-9]+`, converted to (exact) numeric values. -/
def get_num (string : String) : List Rat :=
  (findNumsAux string.data.length string.data).map parseDecimal

/-- `aminoCons.py` `Rate4Site.get_alpha`: a missing file raises
`FileNotFoundError`; otherwise take the first line (splitting on
`os.linesep`) in which `re.search` finds `alpha parameter`, defaulting to
the empty string, and return the first number in it; the `IndexError` of
`parameter[0]` on a numberless string is turned into `Rate4SiteError`.
The file system is modelled as `Option String`: `none` when
`os.path.isfile` is false, otherwise the file contents. -/
def get_alpha (r4s : Option String) : Except PyError Rat :=
  match r4s with
  | none => Except.error PyError.fileNotFoundError
  | some contents =>
    let splitted := pySplitOn contents '\n'
    let parameter := (splitted.find? (fun s => strContainsSub s "alpha parameter")).getD ""
    match (get_num parameter).head? with
    | some x => Except.ok x
    | none => Except.error (PyError.rate4SiteError "File format is not supported")

/-- `aminoCons.py` `Rate4Site.extract`: `string.split()[parameter]`, with
the subscript raising `IndexError` when the row is too short. -/
def extract (string : String) (parameter : Nat) : Except PyError String :=
  match (pySplit string).get? parameter with
  | some w => Except.ok w
  | none => Except.error PyError.indexError

/-- `aminoCons.py` `Rate4Site.extract_resi`: the lines (split on
`os.linesep`) that do not start with `#`, with empty lines dropped. -/
def extract_resi (string : String) : List String :=
  ((pySplitOn string '\n').filter (fun s => ¬ pyStartsWith s "#")).filter
    (fun x => x ≠ "")

/-- One iteration of the `for r in residues` loop of `read2matrix`: append
the whitespace-separated fields 1–5 selected by the five flags, in that
order (the `reshape` always succeeds because exactly one entry is appended
per selected flag). -/
def rowOf (identity score qqint std msa : Bool) (r : String) :
    Except PyError (List String) := do
  let resi0 : List String := []
  let resi1 ← if identity then do
      let amino ← extract r 1
      pure (resi0 ++ [amino])
    else pure resi0
  let resi2 ← if score then do
      let conse ← extract r 2
      pure (resi1 ++ [conse])
    else pure resi1
  let resi3 ← if qqint then do
      let intqq ← extract r 3
      pure (resi2 ++ [intqq])
    else pure resi2
  let resi4 ← if std then do
      let stdev ← extract r 4
      pure (resi3 ++ [stdev])
    else pure resi3
  let resi5 ← if msa then do
      let align ← extract r 5
      pure (resi4 ++ [align])
    else pure resi4
  pure resi5

/-- `aminoCons.py` `Rate4Site.read2matrix`: a missing file raises
`FileNotFoundError`; otherwise each data row of `extract_resi` becomes one
row of the matrix (the numpy accumulation with the deleted `np.empty` seed
row is modelled as the list of produced rows).  The file system is again
`Option String`. -/
def read2matrix (file : Option String) (identity score qqint std msa : Bool) :
    Except PyError (List (List String)) :=
  match file with
  | none => Except.error PyError.fileNotFoundError
  | some contents => (extract_resi contents).mapM (rowOf identity score qqint std msa)

/-- The column count `l.count(True)` of `read2matrix`. -/
def numSelected (identity score qqint std msa : Bool) : Nat :=
  List.count true [identity, score, qqint, std, msa]

/-- The fields a well-formed table row contributes to the matrix: field `i`
of the whitespace-split row for each selected flag, in flag order. -/
def selectedFields (identity score qqint std msa : Bool) (r : String) : List String :=
  (if identity then [(pySplit r).getD 1 ""] else []) ++
  (if score then [(pySplit r).getD 2 ""] else []) ++
  (if qqint then [(pySplit r).getD 3 ""] else []) ++
  (if std then [(pySplit r).getD 4 ""] else []) ++
  (if msa then [(pySplit r).getD 5 ""] else [])

/-- Decidable equality on `Except`, by cases on the two constructors. -/
instance {ε α : Type} [DecidableEq ε] [DecidableEq α] : DecidableEq (Except ε α)
  | Except.ok a, Except.ok b =>
      if h : a = b then Decidable.isTrue (by rw [h]) else Decidable.isFalse (by simp [h])
  | Except.ok _, Except.error _ => Decidable.isFalse (by simp)
  | Except.error _, Except.ok _ => Decidable.isFalse (by simp)
  | Except.error e, Except.error f =>
      if h : e = f then Decidable.isTrue (by rw [h]) else Decidable.isFalse (by simp [h])

/-! ### Helper lemmas -/

/-- Binding a success just applies the continuation. -/
@[simp] theorem ok_bind {ε α β : Type} (a : α) (f : α → Except ε β) :
    (Except.ok a >>= f : Except ε β) = f a := rfl

/-- Binding a failure keeps the failure. -/
@[simp] theorem error_bind {ε α β : Type} (e : ε) (f : α → Except ε β) :
    (Except.error e >>= f : Except ε β) = Except.error e := rfl

/-- `pure` on `Except` is `Except.ok`. -/
@[simp] theorem pure_eq_ok {ε α : Type} (a : α) :
    (pure a : Except ε α) = Except.ok a := rfl

/-- `mapM` over `Except` succeeds with the pointwise results when every
element succeeds. -/
theorem mapM_ok_of_forall {α β : Type} (f : α → Except PyError β) (g : α → β) :
    ∀ l : List α, (∀ a ∈ l, f a = Except.ok (g a)) → l.mapM f = Except.ok (l.map g) := by
  intro l
  induction l with
  | nil => intro _; rfl
  | cons a t ih =>
    intro h
    rw [List.mapM_cons, h a (List.mem_cons_self a t),
      ih (fun x hx => h x (List.mem_cons_of_mem a hx))]
    rfl

/-- `mapM` over `Except` fails with `E` when some element fails with `E`
and `E` is the only failure any element can produce. -/
theorem mapM_error_of_exists {α β : Type} (f : α → Except PyError β) (E : PyError) :
    ∀ l : List α,
      (∀ a ∈ l, f a = Except.error E ∨ ∃ b, f a = Except.ok b) →
      (∃ a ∈ l, f a = Except.error E) → l.mapM f = Except.error E := by
  intro l
  induction l with
  | nil =>
    intro _ hex
    rcases hex with ⟨a, ha, _⟩
    exact absurd ha (List.not_mem_nil a)
  | cons a t ih =>
    intro hall hex
    rw [List.mapM_cons]
    rcases hall a (List.mem_cons_self a t) with herr | ⟨b, hok⟩
    · rw [herr]; rfl
    · rw [hok, ok_bind]
      have hext : ∃ x ∈ t, f x = Except.error E := by
        rcases hex with ⟨x, hx, hfx⟩
        rcases List.mem_cons.mp hx with rfl | hxt
        · rw [hok] at hfx; cases hfx
        · exact ⟨x, hxt, hfx⟩
      rw [ih (fun y hy => hall y (List.mem_cons_of_mem a hy)) hext]
      rfl

/-- Indexing below the length yields the default-free element. -/
theorem get?_eq_some_getD {α : Type} (l : List α) (i : Nat) (d : α)
    (h : i < l.length) : l.get? i = some (l.getD i d) := by
  rcases hg : l.get? i with _ | w
  · rw [List.get?_eq_none] at hg; omega
  · rw [List.getD_eq_getElem?_getD, ← List.get?_eq_getElem?, hg]; rfl

/-- A well-formed table row turns into exactly its selected fields. -/
theorem rowOf_eq (idn sc qq sd ms : Bool) (r : String)
    (h1 : idn = true → 1 < (pySplit r).length)
    (h2 : sc = true → 2 < (pySplit r).length)
    (h3 : qq = true → 3 < (pySplit r).length)
    (h4 : sd = true → 4 < (pySplit r).length)
    (h5 : ms = true → 5 < (pySplit r).length) :
    rowOf idn sc qq sd ms r = Except.ok (selectedFields idn sc qq sd ms r) := by
  have e1 : idn = true → extract r 1 = Except.ok ((pySplit r).getD 1 "") := fun h => by
    unfold extract; rw [get?_eq_some_getD _ _ _ (h1 h)]
  have e2 : sc = true → extract r 2 = Except.ok ((pySplit r).getD 2 "") := fun h => by
    unfold extract; rw [get?_eq_some_getD _ _ _ (h2 h)]
  have e3 : qq = true → extract r 3 = Except.ok ((pySplit r).getD 3 "") := fun h => by
    unfold extract; rw [get?_eq_some_getD _ _ _ (h3 h)]
  have e4 : sd = true → extract r 4 = Except.ok ((pySplit r).getD 4 "") := fun h => by
    unfold extract; rw [get?_eq_some_getD _ _ _ (h4 h)]
  have e5 : ms = true → extract r 5 = Except.ok ((pySplit r).getD 5 "") := fun h => by
    unfold extract; rw [get?_eq_some_getD _ _ _ (h5 h)]
  cases idn <;> cases sc <;> cases qq <;> cases sd <;> cases ms <;>
    simp_all [rowOf, selectedFields]

/-- Each produced row has one entry per selected flag. -/
theorem selectedFields_length (idn sc qq sd ms : Bool) (r : String) :
    (selectedFields idn sc qq sd ms r).length = numSelected idn sc qq sd ms := by
  cases idn <;> cases sc <;> cases qq <;> cases sd <;> cases ms <;>
    simp [selectedFields, numSelected]

/-! ### Claim theorems -/

/-- C4 counterexample: the input `"AB C"` is not alphabetic (it contains a
space), does not start with `>`, and yet both validators accept it with a
synthesized header instead of raising `SequenceError`; only the first
character is inspected. -/
theorem header_check_accepts_nonalpha_tail :
    header_check "AB C" = Except.ok (">Input Sequence\nAB C") ∧
    ortholog_checker "AB C" = Except.ok (">Input Sequence\nAB C") ∧
    pyStartsWith "AB C" ">" = false ∧
    ("AB C").data.all Char.isAlpha = false :=
  ⟨by decide, by decide, by decide, by decide⟩

/-- C4 (amended): the validators reject exactly the empty string and the
strings whose first character is neither `>` nor alphabetic; characters
after the first are never inspected. -/
theorem header_check_reject_spec :
    header_check "" = Except.error (PyError.sequenceError "Empty Sequence entered.") ∧
    ortholog_checker "" = Except.error (PyError.sequenceError "Empty Sequence entered.") ∧
    (∀ s : String, s ≠ "" → pyStartsWith s ">" = false → (pyFirstChar s).isAlpha = false →
      header_check s =
        Except.error (PyError.sequenceError "Not a FASTA sequence. Please try again") ∧
      ortholog_checker s =
        Except.error (PyError.sequenceError "Not a FASTA sequence. Please try again")) := by
  refine ⟨by decide, by decide, ?_⟩
  intro s h1 h2 h3
  exact ⟨by simp [header_check, h1, h2, h3], by simp [ortholog_checker, h1, h2, h3]⟩

/-- C4 witness: the rejection branch fires on the concrete input `"1AB"`. -/
theorem header_check_reject_spec_witness :
    header_check "1AB" =
      Except.error (PyError.sequenceError "Not a FASTA sequence. Please try again") :=
  (header_check_reject_spec.2.2 "1AB" (by decide) (by decide) (by decide)).1

/-- C7: a non-empty input whose first character is a letter and which does
not start with `>` gains exactly the synthesized header line
`">Input Sequence"` plus the line separator, with the rest unchanged; input
starting with `>` is returned unchanged; the empty string raises
`SequenceError`.  Both validators agree. -/
theorem header_check_accept_spec :
    (∀ s : String, s ≠ "" → pyStartsWith s ">" = false → (pyFirstChar s).isAlpha = true →
      header_check s = Except.ok (">Input Sequence" ++ linesep ++ s) ∧
      ortholog_checker s = Except.ok (">Input Sequence" ++ linesep ++ s)) ∧
    (∀ s : String, pyStartsWith s ">" = true →
      header_check s = Except.ok s ∧ ortholog_checker s = Except.ok s) ∧
    header_check "" = Except.error (PyError.sequenceError "Empty Sequence entered.") ∧
    ortholog_checker "" = Except.error (PyError.sequenceError "Empty Sequence entered.") := by
  refine ⟨?_, ?_, by decide, by decide⟩
  · intro s h1 h2 h3
    exact ⟨by simp [header_check, h1, h2, h3], by simp [ortholog_checker, h1, h2, h3]⟩
  · intro s h
    exact ⟨by simp [header_check, h], by simp [ortholog_checker, h]⟩

/-- C7 witness: the synthesizing branch on `"MKV"` and the pass-through
branch on `">x"`. -/
theorem header_check_accept_spec_witness :
    header_check "MKV" = Except.ok (">Input Sequence" ++ linesep ++ "MKV") ∧
    header_check ">x" = Except.ok ">x" :=
  ⟨(header_check_accept_spec.1 "MKV" (by decide) (by decide) (by decide)).1,
   (header_check_accept_spec.2.1 ">x" (by decide)).1⟩

/-- C8: on the FASTA input `">H\nAB\nCD"` the stripper returns
`">H\nABABCD"`, duplicating the first body line, instead of the documented
header-plus-joined-body `">H\nABCD"`: the code pops only the old header
before inserting the combined `header + linesep + first line`, so the
first body line stays behind and appears twice. -/
theorem seqnwl_strip_duplicates_first_line :
    seqnwl_strip ">H\nAB\nCD" = Except.ok ">H\nABABCD" ∧
    seqnwl_strip ">H\nAB\nCD" ≠ Except.ok (">H" ++ linesep ++ "ABCD") :=
  ⟨by decide, by decide⟩

/-- C1 counterexample: on HTTP status 504, `ortholog_to_fasta`,
`HOG_to_fasta` and `update_OMA_orthoIDs` raise `RequestException` (with the
status recorded), not `TimeoutError` as the claim asserts for all five
operations. -/
theorem fasta_endpoints_504_not_timeout :
    ortholog_to_fasta ⟨504, ""⟩ (initState ">P\nAB") =
      Except.error (PyError.requestException "Status code: 504",
        { initState ">P\nAB" with save_status := 504 }) ∧
    HOG_to_fasta ⟨504, ""⟩ (initState ">P\nAB") =
      Except.error (PyError.requestException "Status code: 504",
        { initState ">P\nAB" with save_status := 504 }) ∧
    update_OMA_orthoIDs ⟨504, []⟩ (initState ">P\nAB") =
      Except.error (PyError.requestException "Status code:504",
        { initState ">P\nAB" with save_status := 504 }) :=
  ⟨by decide, by decide, by decide⟩

/-- C1 (amended): `retrieve_OMAid` and `retrieve_HOGS` raise
`TimeoutError` on status 504 and `RequestException` on any other non-200
status; `update_OMA_orthoIDs`, `ortholog_to_fasta` and `HOG_to_fasta`
raise `RequestException` on every non-200 status, 504 included; in every
case the status code is recorded in `save_status`. -/
theorem http_status_dispatch :
    (∀ (resp : SeqResponse) (st : OFState), resp.status_code = 504 →
      retrieve_OMAid resp st =
        Except.error (PyError.timeoutError, { st with save_status := 504 })) ∧
    (∀ (resp : SeqResponse) (st : OFState),
      resp.status_code ≠ 200 → resp.status_code ≠ 504 →
      retrieve_OMAid resp st =
        Except.error (PyError.requestException ("Status code:" ++ toString resp.status_code),
          { st with save_status := resp.status_code })) ∧
    (∀ (resp : HogResponse) (root : Bool) (st : OFState), resp.status_code = 504 →
      retrieve_HOGS resp root st =
        Except.error (PyError.timeoutError, { st with save_status := 504 })) ∧
    (∀ (resp : HogResponse) (root : Bool) (st : OFState),
      resp.status_code ≠ 200 → resp.status_code ≠ 504 →
      retrieve_HOGS resp root st =
        Except.error (PyError.requestException ("Status code:" ++ toString resp.status_code),
          { st with save_status := resp.status_code })) ∧
    (∀ (resp : IdsResponse) (st : OFState), resp.status_code ≠ 200 →
      update_OMA_orthoIDs resp st =
        Except.error (PyError.requestException ("Status code:" ++ toString resp.status_code),
          { st with save_status := resp.status_code })) ∧
    (∀ (resp : TextResponse) (st : OFState), resp.status_code ≠ 200 →
      ortholog_to_fasta resp st =
        Except.error (PyError.requestException ("Status code: " ++ toString resp.status_code),
          { st with save_status := resp.status_code })) ∧
    (∀ (resp : TextResponse) (st : OFState), resp.status_code ≠ 200 →
      HOG_to_fasta resp st =
        Except.error (PyError.requestException ("Status code: " ++ toString resp.status_code),
          { st with save_status := resp.status_code })) := by
  refine ⟨?_, ?_, ?_, ?_, ?_, ?_, ?_⟩
  · intro resp st h
    simp [retrieve_OMAid, h]
  · intro resp st h200 h504
    simp [retrieve_OMAid, h200, h504]
  · intro resp root st h
    simp [retrieve_HOGS, h]
  · intro resp root st h200 h504
    simp [retrieve_HOGS, h200, h504]
  · intro resp st h200
    simp [update_OMA_orthoIDs, h200]
  · intro resp st h200
    simp [ortholog_to_fasta, h200]
  · intro resp st h200
    simp [HOG_to_fasta, h200]

/-- C1 witness: every branch of the dispatch applied at a concrete status
(504 for the timeout branches, 503 for the request-failure branches). -/
theorem http_status_dispatch_witness :
    retrieve_OMAid ⟨504, []⟩ (initState "x") =
      Except.error (PyError.timeoutError, { initState "x" with save_status := 504 }) ∧
    retrieve_OMAid ⟨503, []⟩ (initState "x") =
      Except.error (PyError.requestException ("Status code:" ++ toString 503),
        { initState "x" with save_status := 503 }) ∧
    retrieve_HOGS ⟨504, [], []⟩ true (initState "x") =
      Except.error (PyError.timeoutError, { initState "x" with save_status := 504 }) ∧
    retrieve_HOGS ⟨503, [], []⟩ true (initState "x") =
      Except.error (PyError.requestException ("Status code:" ++ toString 503),
        { initState "x" with save_status := 503 }) ∧
    update_OMA_orthoIDs ⟨503, []⟩ (initState "x") =
      Except.error (PyError.requestException ("Status code:" ++ toString 503),
        { initState "x" with save_status := 503 }) ∧
    ortholog_to_fasta ⟨503, ""⟩ (initState "x") =
      Except.error (PyError.requestException ("Status code: " ++ toString 503),
        { initState "x" with save_status := 503 }) ∧
    HOG_to_fasta ⟨503, ""⟩ (initState "x") =
      Except.error (PyError.requestException ("Status code: " ++ toString 503),
        { initState "x" with save_status := 503 }) :=
  ⟨http_status_dispatch.1 ⟨504, []⟩ (initState "x") rfl,
   http_status_dispatch.2.1 ⟨503, []⟩ (initState "x") (by decide) (by decide),
   http_status_dispatch.2.2.1 ⟨504, [], []⟩ true (initState "x") rfl,
   http_status_dispatch.2.2.2.1 ⟨503, [], []⟩ true (initState "x") (by decide) (by decide),
   http_status_dispatch.2.2.2.2.1 ⟨503, []⟩ (initState "x") (by decide),
   http_status_dispatch.2.2.2.2.2.1 ⟨503, ""⟩ (initState "x") (by decide),
   http_status_dispatch.2.2.2.2.2.2 ⟨503, ""⟩ (initState "x") (by decide)⟩

/-- C2 counterexample: with a network that resolves the id to `"X"` and
returns the ortholog fasta `"ORTHO"`, the first successful
`get_orthologs` call on `OrthologFinder(">P\nAB")` returns the stripped
input plus separator plus `"ORTHO"`, but the second call returns only the
cached `self.orthologs`, which is the different string `"ORTHO"`. -/
theorem get_orthologs_not_idempotent :
    get_orthologs ⟨⟨200, ["X"]⟩, ⟨200, [], []⟩, ⟨200, []⟩, ⟨200, "ORTHO"⟩, ⟨200, "HF"⟩⟩
        (initState ">P\nAB") =
      Except.ok (">P\nABAB" ++ linesep ++ "ORTHO",
        { fasta := ">P\nAB", sequence := "AB", id := "X", orthologs := "ORTHO",
          has_run := true }) ∧
    get_orthologs ⟨⟨200, ["X"]⟩, ⟨200, [], []⟩, ⟨200, []⟩, ⟨200, "ORTHO"⟩, ⟨200, "HF"⟩⟩
        { fasta := ">P\nAB", sequence := "AB", id := "X", orthologs := "ORTHO",
          has_run := true } =
      Except.ok ("ORTHO",
        { fasta := ">P\nAB", sequence := "AB", id := "X", orthologs := "ORTHO",
          has_run := true }) ∧
    (">P\nABAB" ++ linesep ++ "ORTHO") ≠ "ORTHO" :=
  ⟨by decide, by decide, by decide⟩

/-- C2 (amended): once `has_run` is set by a first successful call, every
later `get_orthologs` call returns the cached `self.orthologs` — the raw
remote fasta, not the first call's return value, which additionally holds
the stripped input in front — leaves the cache and the flag unchanged (so
all later calls return the same string as each other), and reads nothing
from the network. -/
theorem get_orthologs_cached :
    ∀ (net : Network) (st : OFState) (s : String), st.has_run = true →
      get_fasta_sequence st.fasta 0 = Except.ok s →
      get_orthologs net st = Except.ok (st.orthologs, { st with sequence := s }) ∧
      (∀ net' : Network, get_orthologs net' st = get_orthologs net st) := by
  intro net st s h hseq
  constructor
  · simp [get_orthologs, get_orthologs_body, hseq, h]
  · intro net'
    simp [get_orthologs, get_orthologs_body, hseq, h]

/-- C2 witness: the cached branch on a concrete post-first-call state. -/
theorem get_orthologs_cached_witness :
    get_orthologs ⟨⟨200, ["X"]⟩, ⟨200, [], []⟩, ⟨200, []⟩, ⟨200, "ORTHO"⟩, ⟨200, "HF"⟩⟩
        { fasta := ">P\nAB", sequence := "AB", id := "X", orthologs := "ORTHO",
          has_run := true } =
      Except.ok ("ORTHO",
        { fasta := ">P\nAB", sequence := "AB", id := "X", orthologs := "ORTHO",
          has_run := true }) :=
  (get_orthologs_cached ⟨⟨200, ["X"]⟩, ⟨200, [], []⟩, ⟨200, []⟩, ⟨200, "ORTHO"⟩, ⟨200, "HF"⟩⟩
    { fasta := ">P\nAB", sequence := "AB", id := "X", orthologs := "ORTHO",
      has_run := true } "AB" rfl (by decide)).1

/-- C3 counterexample: `get_HOGs` is a top orchestration call, yet a
remote failure (here the id-resolution endpoint answering 503) escapes it
as a raised `RequestException` instead of being converted to a string:
`get_HOGs` has no exception handler. -/
theorem get_HOGs_reraises_remote_failure :
    get_HOGs ⟨⟨503, []⟩, ⟨200, [], []⟩, ⟨200, []⟩, ⟨200, "ORTHO"⟩, ⟨200, "HF"⟩⟩
        (initState ">P\nAB") =
      Except.error (PyError.requestException "Status code:503",
        { fasta := ">P\nAB", sequence := "AB", save_status := 503 }) := by decide

/-- C3 (amended): `get_orthologs` catches `RequestException` and
`TimeoutError` and converts them into returned human-readable strings
carrying the saved status code, so neither ever escapes it; `get_HOGs`
converts nothing (see the counterexample). -/
theorem get_orthologs_converts_remote_failures :
    (∀ (net : Network) (st st' : OFState) (e : PyError),
      get_orthologs net st = Except.error (e, st') →
      e ≠ PyError.timeoutError ∧ ∀ m : String, e ≠ PyError.requestException m) ∧
    get_orthologs ⟨⟨503, []⟩, ⟨200, [], []⟩, ⟨200, []⟩, ⟨200, "ORTHO"⟩, ⟨200, "HF"⟩⟩
        (initState ">P\nAB") =
      Except.ok ("There was an issue querying the database. Status code 503",
        { fasta := ">P\nAB", sequence := "AB", save_status := 503 }) ∧
    get_orthologs ⟨⟨504, []⟩, ⟨200, [], []⟩, ⟨200, []⟩, ⟨200, "ORTHO"⟩, ⟨200, "HF"⟩⟩
        (initState ">P\nAB") =
      Except.ok
        ("The database timed out. Could not determine the orthologs of your sequence. Status code 504",
        { fasta := ">P\nAB", sequence := "AB", save_status := 504 }) := by
  refine ⟨?_, by decide, by decide⟩
  intro net st st' e h
  unfold get_orthologs at h
  rcases hb : get_orthologs_body net st with ⟨e', st''⟩ | r <;> rw [hb] at h
  · cases e' <;> simp_all <;>
      (obtain ⟨h1, -⟩ := h
       subst h1
       simp)
  · cases h

/-- C3 witness: the only exceptions escaping `get_orthologs` are sequence
errors, as on the malformed input `"1x"`. -/
theorem get_orthologs_converts_remote_failures_witness :
    PyError.sequenceError "Not a FASTA sequence. Please try again" ≠
      PyError.timeoutError :=
  (get_orthologs_converts_remote_failures.1
    ⟨⟨200, ["X"]⟩, ⟨200, [], []⟩, ⟨200, []⟩, ⟨200, "ORTHO"⟩, ⟨200, "HF"⟩⟩
    (initState "1x")
    { fasta := "1x", sequence := "1x", id := "X", orthologs := "ORTHO" }
    (PyError.sequenceError "Not a FASTA sequence. Please try again")
    (by decide)).1

/-- C5: on file contents whose data lines (non-`#`, non-empty) each carry
a full table row (at least six whitespace-separated fields), `read2matrix`
returns one row per data line, each row holding exactly one entry per
selected field; with the default selection (identity and score) every row
is exactly the pair of whitespace-separated fields 1 and 2 of its line
(needing only three fields). -/
theorem read2matrix_shape :
    (∀ (contents : String) (idn sc qq sd ms : Bool),
      (∀ r ∈ extract_resi contents, 6 ≤ (pySplit r).length) →
      read2matrix (some contents) idn sc qq sd ms =
        Except.ok ((extract_resi contents).map (selectedFields idn sc qq sd ms)) ∧
      ((extract_resi contents).map (selectedFields idn sc qq sd ms)).length =
        (extract_resi contents).length ∧
      (∀ row ∈ (extract_resi contents).map (selectedFields idn sc qq sd ms),
        row.length = numSelected idn sc qq sd ms)) ∧
    (∀ contents : String,
      (∀ r ∈ extract_resi contents, 3 ≤ (pySplit r).length) →
      read2matrix (some contents) true true false false false =
        Except.ok ((extract_resi contents).map
          (fun r => [(pySplit r).getD 1 "", (pySplit r).getD 2 ""]))) := by
  constructor
  · intro contents idn sc qq sd ms h
    refine ⟨?_, by simp, ?_⟩
    · unfold read2matrix
      exact mapM_ok_of_forall _ _ _ (fun r hr =>
        rowOf_eq idn sc qq sd ms r
          (fun _ => by have := h r hr; omega)
          (fun _ => by have := h r hr; omega)
          (fun _ => by have := h r hr; omega)
          (fun _ => by have := h r hr; omega)
          (fun _ => by have := h r hr; omega))
    · intro row hrow
      rcases List.mem_map.mp hrow with ⟨r, _, rfl⟩
      exact selectedFields_length idn sc qq sd ms r
  · intro contents h
    unfold read2matrix
    refine mapM_ok_of_forall _ _ _ (fun r hr => ?_)
    have heq := rowOf_eq true true false false false r
      (fun _ => by have := h r hr; omega)
      (fun _ => by have := h r hr; omega)
      (by intro hf; cases hf) (by intro hf; cases hf) (by intro hf; cases hf)
    rw [heq]
    simp [selectedFields]

/-- C5 witness: the default selection on a three-row mock table gives a
3×2 matrix of fields 1 and 2. -/
theorem read2matrix_shape_witness :
    read2matrix (some "#h\n1 A 0.5 I S M\n2 C 0.7 I S M\n3 D 0.1 I S M")
        true true false false false =
      Except.ok ((extract_resi "#h\n1 A 0.5 I S M\n2 C 0.7 I S M\n3 D 0.1 I S M").map
        (fun r => [(pySplit r).getD 1 "", (pySplit r).getD 2 ""])) :=
  read2matrix_shape.2 "#h\n1 A 0.5 I S M\n2 C 0.7 I S M\n3 D 0.1 I S M" (by decide)

/-- The default-selection row builder either succeeds or raises
`IndexError`; it raises `IndexError` whenever the row has fewer than three
whitespace-separated fields. -/
theorem rowOf_default_total (r : String) :
    (rowOf true true false false false r = Except.error PyError.indexError ∨
      ∃ b, rowOf true true false false false r = Except.ok b) ∧
    ((pySplit r).length < 3 → rowOf true true false false false r =
      Except.error PyError.indexError) := by
  constructor
  · rcases h1 : (pySplit r)[1]? with _ | v1
    · left; simp [rowOf, extract, h1]
    · rcases h2 : (pySplit r)[2]? with _ | v2
      · left; simp [rowOf, extract, h1, h2]
      · right; exact ⟨[v1, v2], by simp [rowOf, extract, h1, h2]⟩
  · intro hlen
    have h2 : (pySplit r)[2]? = none := List.getElem?_eq_none (by omega)
    rcases h1 : (pySplit r)[1]? with _ | v1
    · simp [rowOf, extract, h1]
    · simp [rowOf, extract, h1, h2]

/-- C9: any data line (non-`#`, non-empty) with fewer than three
whitespace-separated fields makes `read2matrix` with the default
configuration raise an unguarded `IndexError`, coming from
`extract`'s `string.split()[parameter]` subscript. -/
theorem read2matrix_short_row_indexError :
    ∀ contents : String,
      (∃ r ∈ extract_resi contents, (pySplit r).length < 3) →
      read2matrix (some contents) true true false false false =
        Except.error PyError.indexError := by
  intro contents hex
  unfold read2matrix
  refine mapM_error_of_exists _ _ _ (fun r _ => (rowOf_default_total r).1) ?_
  rcases hex with ⟨r, hr, hlen⟩
  exact ⟨r, hr, (rowOf_default_total r).2 hlen⟩

/-- C9 witness: the single data row `"1 M"` has two fields and makes the
default `read2matrix` raise `IndexError`. -/
theorem read2matrix_short_row_indexError_witness :
    read2matrix (some "1 M") true true false false false =
      Except.error PyError.indexError :=
  read2matrix_short_row_indexError "1 M" ⟨"1 M", by decide, by decide⟩

/-- C6: `get_alpha` (and `read2matrix`) raise `FileNotFoundError` when the
output file is absent; `get_alpha` raises a `Rate4SiteError` reading
`File format is not supported` when no line of the file contains
`alpha parameter`; and on a mock file whose alpha line carries `1.23` it
returns exactly `1.23` (the first number in that line), as an exact
rational. -/
theorem get_alpha_spec :
    get_alpha none = Except.error PyError.fileNotFoundError ∧
    (∀ idn sc qq sd ms : Bool,
      read2matrix none idn sc qq sd ms = Except.error PyError.fileNotFoundError) ∧
    (∀ contents : String,
      (∀ line ∈ pySplitOn contents '\n',
        strContainsSub line "alpha parameter" = false) →
      get_alpha (some contents) =
        Except.error (PyError.rate4SiteError "File format is not supported")) ∧
    get_alpha
        (some "#Rates were calculated using the expectation of the posterior rate distribution\n#The alpha parameter 1.23\n1 A 0.5") =
      Except.ok (mkRat 123 100) := by
  refine ⟨rfl, fun _ _ _ _ _ => rfl, ?_, by decide⟩
  intro contents h
  unfold get_alpha
  have hf : (pySplitOn contents '\n').find?
      (fun s => strContainsSub s "alpha parameter") = none :=
    List.find?_eq_none.mpr (fun x hx => by rw [h x hx]; exact Bool.false_ne_true)
  dsimp only
  rw [hf]
  decide

/-- C6 witness: the format-error branch on a file with no alpha line. -/
theorem get_alpha_spec_witness :
    get_alpha (some "no header here\n1 A 0.5") =
      Except.error (PyError.rate4SiteError "File format is not supported") :=
  get_alpha_spec.2.2.1 "no header here\n1 A 0.5" (by decide)

/-- `parseDecimal` only ever builds non-negative rationals. -/
theorem parseDecimal_nonneg (s : String) : 0 ≤ parseDecimal s := by
  unfold parseDecimal
  rcases hs : splitByP (fun c => c = '.') s.data with _ | ⟨i, _ | ⟨f, _ | _⟩⟩ <;>
    simp only [hs] <;>
    first
      | exact le_refl 0
      | (rw [Rat.mkRat_eq_div]; positivity)

/-- C10: every number returned by `get_num` is non-negative — the regex
`[0-9]*\.?[0-9]+` cannot match a minus sign — and consequently `get_alpha`
on a file recording `alpha parameter -1.5` returns the absolute value
`1.5`. -/
theorem get_num_nonneg :
    (∀ (s : String) (x : Rat), x ∈ get_num s → 0 ≤ x) ∧
    get_alpha (some "#The alpha parameter -1.5\n") = Except.ok (mkRat 3 2) := by
  refine ⟨?_, by decide⟩
  intro s x hx
  rcases List.mem_map.mp hx with ⟨m, _, rfl⟩
  exact parseDecimal_nonneg m

/-- C10 witness: the non-negativity of a concrete parsed number. -/
theorem get_num_nonneg_witness : (0 : Rat) ≤ mkRat 3 2 :=
  get_num_nonneg.1 "a1.5" (mkRat 3 2) (by decide)

end ConsScore
